import Mathlib

/-!
Verification development for the post pipeline in src/api/generate_posts.py.

The Python module is embedded shallowly: every external HTTP interaction is
represented by an environment function that maps a request to the outcome the
external service produces for it, and the file system is represented by a map
from file paths to file contents.  Machine-level Python behaviors are modelled
as follows:

* a Python string is a Lean String (a list of unicode scalar values); slicing
  s[:n], str.strip and str.split are re-implemented below on the character
  list (pyTake, pyStrip, pyWords);
* a raised exception that a caller can observe is an Except value; FastAPI
  HTTPException carries its status code and detail string;
* requests.Response.raise_for_status raises exactly for status codes in
  [400, 600), per the requests library;
* the JSON values stored in the daily queue file are modelled by the JValue
  inductive; the Python json module round trips such values between text and
  structured form, so the file map stores the structured form directly, with a
  separate constructor for file states that fail to read or to parse.
-/

/-- Python slice s[:n], taking the first n characters. -/
def pyTake (s : String) (n : Nat) : String := ⟨s.data.take n⟩

/-- Python str.strip with no arguments: drop leading and trailing whitespace. -/
def pyStrip (s : String) : String :=
  ⟨((s.data.dropWhile Char.isWhitespace).reverse.dropWhile Char.isWhitespace).reverse⟩

/-- Python str.split with no arguments: the maximal whitespace-free chunks.
The length of this list is the word count len(s.split()) used by the code. -/
def pyWords (s : String) : List (List Char) :=
  (List.splitOnP Char.isWhitespace s.data).filter (fun w => w ≠ [])

/-- FastAPI HTTPException, as observed by a caller: status code plus detail. -/
structure HTTPException where
  status_code : Nat
  detail : String
deriving DecidableEq, Repr

/-- Default model argument of generate_content_with_huggingface. -/
def primaryModel : String := "google/flan-t5-large"

/-- Fallback model hard-coded in the two except branches. -/
def fallbackModel : String := "t5-small"

/-- CONFIG[content_topics]. -/
def content_topics : List String :=
  ["Emerging Technologies", "Industry Trends", "Product Innovation",
   "Software Engineering", "AI Developments"]

/-- CONFIG[post_templates]. -/
def post_templates : List String :=
  ["Sharing insights on {topic}: {content} This advancement is shaping the future of technology. #Tech #Innovation",
   "The latest in {topic}: {content} This development highlights the potential for growth in the industry. #Technology #Future",
   "A deep dive into {topic}: {content} This trend is driving significant progress. #TechTrends #Innovation",
   "Exploring advancements in {topic}: {content} These innovations are redefining the landscape. #SoftwareEngineering #Tech",
   "{topic} continues to evolve: {content} This progress underscores the impact of technology on our world. #AI #Innovation"]

/-- CONFIG[output_dir]. -/
def output_dir : String := "/tmp/pending_posts"

/-- Path of the daily queue file for a given %Y%m%d date string. -/
def queueFile (day : String) : String := output_dir ++ "/posts_" ++ day ++ ".json"

/-- Truthiness test the code applies to CONFIG[huggingface_api_key]: os.getenv
returns None when the variable is unset, and the empty string is also falsy. -/
def keyTruthy : Option String → Bool
  | none => false
  | some s => !(s == "")

/-- Prompt sent on the first generation request (lines 55-60 of the source). -/
def initialPrompt (topic : String) : String :=
  "Write a detailed, professional LinkedIn post (300-500 words) about " ++ topic ++
  ". Use a positive, informative tone, focus on one key insight or advancement, and align with a tech-savvy " ++
  "personal brand. Avoid jargon, provide specific details, examples, or use cases, and do not include questions " ++
  "or calls-to-action. Include relevant statistics, trends, or real-world applications to enhance depth."

/-- Prompt sent on the continuation request (lines 75-78 of the source). -/
def followUpPrompt (topic : String) : String :=
  "Continue the previous LinkedIn post about " ++ topic ++ ", adding 200-300 more words. " ++
  "Maintain a positive, informative tone, provide additional details, examples, or applications, " ++
  "and align with a tech-savvy personal brand. Avoid jargon and do not include questions or calls-to-action."

/-- Static placeholder paragraph returned when the fallback model also fails
(lines 97-102 and 108-113 of the source, identical text in both branches). -/
def fillerText (topic : String) : String :=
  "Exploring " ++ topic ++ " today! Recent advancements are driving significant progress in this field. " ++
  "Innovations are enabling new applications, from streamlining processes to enhancing scalability. " ++
  "For example, recent developments have led to a 20% improvement in processing efficiency in related systems. " ++
  "This trend is poised to influence industries by improving operational workflows and fostering sustainable growth."

/-- Generation request, as the Hugging Face service observes it: target model
and prompt text.  The fixed generation parameters dictionary is the same on
every request and is omitted. -/
structure HFReq where
  model : String
  prompt : String
deriving DecidableEq, Repr

/-- Outcome of one generation request.  resp carries the HTTP status code and,
when the chain response.json()[0][generated_text] yields a string, that string
(before strip); extracted is none when the body cannot be decoded that way, in
which case the chain raises and the generic except branch catches.  netError is
an exception from requests.post itself (connection failure and the like). -/
inductive HFResp where
  | resp (status : Nat) (extracted : Option String)
  | netError (msg : String)
deriving DecidableEq, Repr

/-- Behavior of the generation service: one outcome per request.  Within one
invocation every issued request is distinct (models differ or prompts differ),
so a deterministic map is a faithful account of one execution. -/
abbrev HFEnv := HFReq → HFResp

/-- Result of the try block body for one model: the produced text, or the kind
of exception that left the block (requests HTTPError from raise_for_status,
or any other exception). -/
inductive TryOut where
  | ok (text : String)
  | httpErr (status : Nat)
  | exn (msg : String)
deriving DecidableEq, Repr

/-- Whether the try block failed (either except branch was taken). -/
def TryOut.failed : TryOut → Bool
  | .ok _ => false
  | _ => true

/-- Condition under which requests raise_for_status raises: 4xx or 5xx. -/
def raiseForStatus (s : Nat) : Bool := decide (400 ≤ s ∧ s < 600)

/-- Body of the try block of generate_content_with_huggingface (lines 50-91)
for one model, together with the list of requests it issued, in order.  The
final s[:3000] truncation of the source is applied to both ok results (with
and without continuation), which is what the single return statement does. -/
def tryBody (env : HFEnv) (topic model : String) : TryOut × List HFReq :=
  let req1 : HFReq := ⟨model, initialPrompt topic⟩
  match env req1 with
  | .netError m => (.exn m, [req1])
  | .resp s ext =>
    if raiseForStatus s then (.httpErr s, [req1])
    else
      match ext with
      | none => (.exn "generated_text extraction failed", [req1])
      | some raw =>
        let generated := pyStrip raw
        if (pyWords generated).length < 300 then
          let req2 : HFReq := ⟨model, followUpPrompt topic⟩
          match env req2 with
          | .netError m => (.exn m, [req1, req2])
          | .resp s2 ext2 =>
            if raiseForStatus s2 then (.httpErr s2, [req1, req2])
            else
              match ext2 with
              | none => (.exn "generated_text extraction failed", [req1, req2])
              | some raw2 =>
                (.ok (pyTake (generated ++ " " ++ pyStrip raw2) 3000), [req1, req2])
        else (.ok (pyTake generated 3000), [req1])

/-- Lines 44-113 of the source.  key is CONFIG[huggingface_api_key]; env is the
behavior of the generation service; the returned list is the full sequence of
generation requests the call issued.  The two except branches of the source
have identical bodies and are merged into one alternative pattern.  The
recursive fallback call passes the same key, so the guard at the top holds
again on the recursive call exactly when it held at the top level. -/
def generate_content_with_huggingface (key : Option String) (env : HFEnv)
    (topic : String) (model : String := primaryModel) :
    Except HTTPException String × List HFReq :=
  if keyTruthy key = false then
    (.error ⟨500, "HUGGINGFACE_API_KEY is not configured."⟩, [])
  else
    match tryBody env topic model with
    | (.ok t, tr) => (.ok t, tr)
    | (.httpErr _, tr) | (.exn _, tr) =>
      if hm : model ≠ fallbackModel then
        let r := generate_content_with_huggingface key env topic fallbackModel
        (r.1, tr ++ r.2)
      else
        (.ok (fillerText topic), tr)
termination_by (if model = fallbackModel then 0 else 1)
decreasing_by
  all_goals rw [if_pos trivial, if_neg hm]
  all_goals exact Nat.zero_lt_one

/-- Post record produced by create_post: all four fields are strings. -/
structure Post where
  id : String
  text : String
  topic : String
  created_at : String
deriving DecidableEq, Repr

/-- Single pass of str.format over the template, substituting the fields
named topic and content.  Fuel is the number of characters still allowed to
be consumed; it starts at the full length and strictly decreases, so the
zero case is never reached on the real templates.  Substituted text is not
rescanned, exactly as str.format behaves. -/
def substAux : Nat → List Char → String → String → List Char
  | 0, _, _, _ => []
  | _ + 1, [], _, _ => []
  | fuel + 1, c :: cs, topic, content =>
    if c = '\x7b' ∧ List.isPrefixOf "topic\x7d".data cs then
      topic.data ++ substAux fuel (cs.drop 6) topic content
    else if c = '\x7b' ∧ List.isPrefixOf "content\x7d".data cs then
      content.data ++ substAux fuel (cs.drop 8) topic content
    else
      c :: substAux fuel cs topic content

/-- Python template.format(topic=topic, content=content) for the templates of
this module, whose only replacement fields are topic and content. -/
def pyFormat (template topic content : String) : String :=
  ⟨substAux template.data.length template.data topic content⟩

/-- Lines 115-126 of the source.  random.choice and the uuid/timestamp calls
are modelled by passing the chosen topic, the chosen template, the fresh id
and the current timestamp as arguments.  The call to the generator can raise
(missing credential), and create_post lets that propagate. -/
def create_post (key : Option String) (env : HFEnv)
    (topic template uid now : String) : Except HTTPException Post :=
  match (generate_content_with_huggingface key env topic primaryModel).1 with
  | .error e => .error e
  | .ok content =>
    .ok { id := uid, text := pyFormat template topic content,
          topic := topic, created_at := now }

/-- JSON values as far as this module produces and consumes them: strings,
arrays and string-keyed objects.  The posts this pipeline stores use no other
JSON forms. -/
inductive JValue where
  | str (s : String)
  | arr (items : List JValue)
  | obj (fields : List (String × JValue))

/-- Dictionary literal of create_post, as the JSON value json.dump writes. -/
def Post.toJ (p : Post) : JValue :=
  .obj [("id", .str p.id), ("text", .str p.text),
        ("topic", .str p.topic), ("created_at", .str p.created_at)]

/-- JSON array json.dump writes for a list of posts. -/
def encodePosts (posts : List Post) : JValue := .arr (posts.map Post.toJ)

/-- Inverse reading of Post.toJ, used to state the round-trip property. -/
def decodePost (v : JValue) : Option Post :=
  match v with
  | .obj (("id", .str i) :: ("text", .str t) :: ("topic", .str tp)
          :: ("created_at", .str c) :: []) => some ⟨i, t, tp, c⟩
  | _ => none

/-- Inverse reading of encodePosts. -/
def decodePosts (v : JValue) : Option (List Post) :=
  match v with
  | .arr items => items.mapM decodePost
  | _ => none

/-- State of one file as the queue code can observe it: jsonVal when open and
json.load succeed, unreadable when either raises (missing file, IO error, or
text that is not valid JSON). -/
inductive FileContent where
  | jsonVal (v : JValue)
  | unreadable

/-- File system: content per absolute path. -/
abbrev FS := String → Option FileContent

/-- Lines 128-138 of the source.  day is datetime.now().strftime(%Y%m%d);
writeOk is whether the open/json.dump pair succeeds (the except branch of the
source logs a write failure and returns None).  On success the file for the
day is overwritten with the serialized batch and the resolved path is
returned. -/
def save_posts_for_review (fs : FS) (day : String) (posts : List Post)
    (writeOk : Bool) : Option String × FS :=
  if writeOk then
    (some (queueFile day),
     fun p => if p = queueFile day then some (.jsonVal (encodePosts posts)) else fs p)
  else (none, fs)

/-- Result of open plus json.load on the daily queue file, before the except
handler of load_pending_posts: error stands for the raised exception. -/
def readQueue (fs : FS) (day : String) : Except String JValue :=
  match fs (queueFile day) with
  | none => .error "FileNotFoundError"
  | some .unreadable => .error "failed to read or parse"
  | some (.jsonVal v) => .ok v

/-- Lines 154-163 of the source: any exception from the read is caught and the
empty list is returned, so the function is total. -/
def load_pending_posts (fs : FS) (day : String) : JValue :=
  match readQueue fs day with
  | .error _ => .arr []
  | .ok v => v

/-- Publish request to the LinkedIn posts endpoint, as the platform observes
it: commentary text, bearer token and author urn (the remaining payload fields
are constants of the source). -/
structure PublishCall where
  text : String
  token : String
  author : String
deriving DecidableEq, Repr

/-- Outcome of the single publish call: an HTTP response with status, body
text and the optional x-restli-id header, or an exception from requests.post
itself. -/
inductive LIOutcome where
  | resp (status : Nat) (body : String) (restliId : Option String)
  | netError (msg : String)
deriving DecidableEq, Repr

/-- Success dictionary built by post_to_linkedin. -/
structure PublishRes where
  status : String
  post_id : String
  message : String
deriving DecidableEq, Repr

/-- Lines 165-204 of the source.  li is the platform behavior; the returned
list is the publish requests issued (always exactly one; the function never
retries).  raise_for_status raises for 4xx/5xx, the HTTPError branch re-raises
HTTPException with the upstream status and body, and any other exception maps
to a 500 with the underlying message. -/
def post_to_linkedin (li : PublishCall → LIOutcome)
    (post_text access_token author_urn : String) :
    Except HTTPException PublishRes × List PublishCall :=
  let call : PublishCall := ⟨post_text, access_token, author_urn⟩
  match li call with
  | .netError m => (.error ⟨500, "Failed to post to LinkedIn: " ++ m⟩, [call])
  | .resp s body rid =>
    if raiseForStatus s then
      (.error ⟨s, "LinkedIn API error: " ++ body⟩, [call])
    else
      (.ok ⟨"success", rid.getD "Unknown", "Post uploaded to LinkedIn"⟩, [call])

/-- Python p[k] on a JSON value: some value when p is an object containing the
key, none when the subscript raises (missing key or non-object). -/
def jIndex (v : JValue) (k : String) : Option JValue :=
  match v with
  | .obj fields => lookupField fields k
  | _ => none
where
  lookupField : List (String × JValue) → String → Option JValue
  | [], _ => none
  | (k2, v2) :: rest, k => if k2 == k then some v2 else lookupField rest k

/-- Python comparison p == post_id between a JSON value and a string: equality
when p is a string, False otherwise (no exception). -/
def pyEqStr (v : JValue) (s : String) : Bool :=
  match v with
  | .str s2 => s2 == s
  | _ => false

/-- Outcome of next((p for p in posts if p[id] == post_id), None): the first
matching element, no match, or an exception raised while evaluating p[id]. -/
inductive FindOut where
  | found (p : JValue)
  | notFound
  | raised

/-- Scan of the generator expression in upload_post (line 244). -/
def findById : List JValue → String → FindOut
  | [], _ => .notFound
  | p :: rest, pid =>
    match jIndex p "id" with
    | none => .raised
    | some v => if pyEqStr v pid then .found p else findById rest pid

/-- Observable outcome of the upload-post endpoint: the success body, an
HTTPException response, or an uncaught non-HTTPException exception (which
FastAPI would turn into a bare 500); the embedding keeps the latter distinct
because the source code itself raises nothing in that branch. -/
inductive EndpointOut where
  | ok (message : String) (post_id : String) (original_post : JValue)
  | httpError (e : HTTPException)
  | crashed

/-- Lines 236-252 of the source.  The triple returned is the endpoint outcome,
the publish calls made, and the file system after the request (the handler
never writes, so the file system passes through unchanged).  A pending-file
value that is not an array of string-keyed objects with string text makes the
Python handler raise while iterating or subscripting; those paths are the
crashed outcome. -/
def upload_post (fs : FS) (day : String) (li : PublishCall → LIOutcome)
    (post_id access_token author_urn : String) :
    EndpointOut × List PublishCall × FS :=
  match load_pending_posts fs day with
  | .arr posts =>
    match findById posts post_id with
    | .raised => (.crashed, [], fs)
    | .notFound => (.httpError ⟨404, "Post ID not found"⟩, [], fs)
    | .found p =>
      match jIndex p "text" with
      | some (.str ptext) =>
        let r := post_to_linkedin li ptext access_token author_urn
        match r.1 with
        | .ok res => (.ok res.message res.post_id p, r.2, fs)
        | .error e => (.httpError e, r.2, fs)
      | _ => (.crashed, [], fs)
  | _ => (.crashed, [], fs)

/-- Generation-service behavior in which every request fails at the transport
level (for example the service is unreachable). -/
def allFailEnv : HFEnv := fun _ => HFResp.netError "connection refused"

/-- Topic of 2600 characters, used to exercise the placeholder branch. -/
def c2Topic : String := ⟨List.replicate 2600 'a'⟩

/-- Generation-service behavior: the primary-model initial request is answered
with HTTP status 303 (a non-2xx status that raise_for_status does not raise
for) and a body that decodes to the text ok; the continuation request is
answered 200 with the text more; the fallback model is never consulted. -/
def c1Env : HFEnv := fun r =>
  if r.model = fallbackModel then HFResp.netError "unused"
  else if r.prompt = initialPrompt "AI Developments" then HFResp.resp 303 (some "ok")
  else HFResp.resp 200 (some "more")

/-- Generation-service behavior answering 200 with alpha, then 200 with beta. -/
def c3Env : HFEnv := fun r =>
  if r.prompt = initialPrompt "AI Developments" then HFResp.resp 200 (some "alpha")
  else HFResp.resp 200 (some "beta")

/-- Content of 3000 characters, the largest the truncation lets through. -/
def bigA : String := ⟨List.replicate 3000 'a'⟩

/-- Generation-service behavior answering the initial request with 3000
characters of text and the continuation request with the text b. -/
def c9Env : HFEnv := fun r =>
  if r.prompt = initialPrompt "AI Developments" then HFResp.resp 200 (some bigA)
  else HFResp.resp 200 (some "b")

/-- Sample post used in store theorems. -/
def samplePost : Post :=
  { id := "07c3d4f1", text := "Sharing insights on AI Developments: x #Tech",
    topic := "AI Developments", created_at := "2025-10-12T09:00:00" }

/-- File system holding one queue file for day 20251012 with one post. -/
def fs7 : FS := fun p =>
  if p = queueFile "20251012" then some (.jsonVal (encodePosts [samplePost])) else none

/-- Platform behavior answering every publish call with HTTP 303 and no
Location-style redirect handling: raise_for_status does not raise. -/
def li303 : PublishCall → LIOutcome := fun _ => LIOutcome.resp 303 "See Other" (some "urn:li:share:42")

/-- Platform behavior answering 201 Created with an x-restli-id header. -/
def li201 : PublishCall → LIOutcome := fun _ => LIOutcome.resp 201 "" (some "urn:li:share:42")

/-- Platform behavior answering 200 with no x-restli-id header. -/
def li200NoHeader : PublishCall → LIOutcome := fun _ => LIOutcome.resp 200 "" none

theorem pyTake_length_le (s : String) (n : Nat) : (pyTake s n).length ≤ n := by
  show (s.data.take n).length ≤ n
  simp [List.length_take]

theorem fillerText_length (topic : String) :
    (fillerText topic).length = topic.length + 404 := by
  simp only [fillerText, String.length_append]
  have h1 : ("Exploring " : String).length = 10 := rfl
  have h2 : (" today! Recent advancements are driving significant progress in this field. " : String).length = 76 := rfl
  have h3 : ("Innovations are enabling new applications, from streamlining processes to enhancing scalability. " : String).length = 97 := rfl
  have h4 : ("For example, recent developments have led to a 20% improvement in processing efficiency in related systems. " : String).length = 108 := rfl
  have h5 : ("This trend is poised to influence industries by improving operational workflows and fostering sustainable growth." : String).length = 113 := rfl
  rw [h1, h2, h3, h4, h5]
  omega

theorem gen_key_falsy (key : Option String) (env : HFEnv) (topic model : String)
    (hk : keyTruthy key = false) :
    generate_content_with_huggingface key env topic model =
      (.error ⟨500, "HUGGINGFACE_API_KEY is not configured."⟩, []) := by
  rw [generate_content_with_huggingface.eq_def key env topic model, if_pos hk]

theorem gen_tryBody_ok (key : Option String) (env : HFEnv) (topic model t : String)
    (tr : List HFReq) (hk : keyTruthy key = true)
    (h : tryBody env topic model = (.ok t, tr)) :
    generate_content_with_huggingface key env topic model = (.ok t, tr) := by
  rw [generate_content_with_huggingface.eq_def key env topic model, if_neg (by simp [hk]), h]

theorem gen_tryBody_fail (key : Option String) (env : HFEnv) (topic model : String)
    (out : TryOut) (tr : List HFReq) (hk : keyTruthy key = true)
    (h : tryBody env topic model = (out, tr)) (hf : out.failed = true)
    (hm : model ≠ fallbackModel) :
    generate_content_with_huggingface key env topic model =
      ((generate_content_with_huggingface key env topic fallbackModel).1,
       tr ++ (generate_content_with_huggingface key env topic fallbackModel).2) := by
  rw [generate_content_with_huggingface.eq_def key env topic model, if_neg (by simp [hk]), h]
  cases out with
  | ok t => simp [TryOut.failed] at hf
  | httpErr s => simp only [dif_pos hm]
  | exn m => simp only [dif_pos hm]

theorem gen_fb_fail (key : Option String) (env : HFEnv) (topic : String)
    (out : TryOut) (tr : List HFReq) (hk : keyTruthy key = true)
    (h : tryBody env topic fallbackModel = (out, tr)) (hf : out.failed = true) :
    generate_content_with_huggingface key env topic fallbackModel =
      (.ok (fillerText topic), tr) := by
  rw [generate_content_with_huggingface.eq_def key env topic fallbackModel, if_neg (by simp [hk]), h]
  cases out with
  | ok t => simp [TryOut.failed] at hf
  | httpErr s => simp
  | exn m => simp

theorem tryBody_ok_length (env : HFEnv) (topic model t : String) (tr : List HFReq)
    (h : tryBody env topic model = (.ok t, tr)) : t.length ≤ 3000 := by
  simp only [tryBody] at h
  repeat' split at h
  all_goals simp_all
  all_goals (obtain ⟨rfl, -⟩ := h; exact pyTake_length_le _ _)

theorem tryBody_trace_model (env : HFEnv) (topic model : String) :
    ∀ r ∈ (tryBody env topic model).2, r.model = model := by
  simp only [tryBody]
  repeat' split
  all_goals (intro r hr; simp at hr)
  all_goals (first | (subst hr; rfl) | (rcases hr with rfl | rfl <;> rfl))

theorem gen_truthy_ok (key : Option String) (env : HFEnv) (topic : String)
    (hk : keyTruthy key = true) :
    ∃ s tr, generate_content_with_huggingface key env topic primaryModel = (.ok s, tr) := by
  rcases h1 : tryBody env topic primaryModel with ⟨out1, tr1⟩
  cases out1 with
  | ok t => exact ⟨t, tr1, gen_tryBody_ok key env topic primaryModel t tr1 hk h1⟩
  | httpErr s =>
    rcases h2 : tryBody env topic fallbackModel with ⟨out2, tr2⟩
    cases out2 with
    | ok t =>
      refine ⟨t, tr1 ++ tr2, ?_⟩
      rw [gen_tryBody_fail key env topic primaryModel _ tr1 hk h1 rfl (by decide),
          gen_tryBody_ok key env topic fallbackModel t tr2 hk h2]
    | httpErr s2 =>
      refine ⟨fillerText topic, tr1 ++ tr2, ?_⟩
      rw [gen_tryBody_fail key env topic primaryModel _ tr1 hk h1 rfl (by decide),
          gen_fb_fail key env topic _ tr2 hk h2 rfl]
    | exn m2 =>
      refine ⟨fillerText topic, tr1 ++ tr2, ?_⟩
      rw [gen_tryBody_fail key env topic primaryModel _ tr1 hk h1 rfl (by decide),
          gen_fb_fail key env topic _ tr2 hk h2 rfl]
  | exn m =>
    rcases h2 : tryBody env topic fallbackModel with ⟨out2, tr2⟩
    cases out2 with
    | ok t =>
      refine ⟨t, tr1 ++ tr2, ?_⟩
      rw [gen_tryBody_fail key env topic primaryModel _ tr1 hk h1 rfl (by decide),
          gen_tryBody_ok key env topic fallbackModel t tr2 hk h2]
    | httpErr s2 =>
      refine ⟨fillerText topic, tr1 ++ tr2, ?_⟩
      rw [gen_tryBody_fail key env topic primaryModel _ tr1 hk h1 rfl (by decide),
          gen_fb_fail key env topic _ tr2 hk h2 rfl]
    | exn m2 =>
      refine ⟨fillerText topic, tr1 ++ tr2, ?_⟩
      rw [gen_tryBody_fail key env topic primaryModel _ tr1 hk h1 rfl (by decide),
          gen_fb_fail key env topic _ tr2 hk h2 rfl]

theorem gen_ok_length (key : Option String) (env : HFEnv) (topic model s : String)
    (tr : List HFReq) (hk : keyTruthy key = true)
    (h : generate_content_with_huggingface key env topic model = (.ok s, tr)) :
    s.length ≤ 3000 ∨ s = fillerText topic := by
  rcases h1 : tryBody env topic model with ⟨out1, tr1⟩
  cases out1 with
  | ok t =>
    rw [gen_tryBody_ok key env topic model t tr1 hk h1] at h
    obtain ⟨rfl, -⟩ : t = s ∧ tr1 = tr := by simpa using h
    exact Or.inl (tryBody_ok_length env topic model _ tr1 h1)
  | httpErr st =>
    by_cases hm : model = fallbackModel
    · subst hm
      rw [gen_fb_fail key env topic _ tr1 hk h1 rfl] at h
      obtain ⟨rfl, -⟩ : fillerText topic = s ∧ tr1 = tr := by simpa using h
      exact Or.inr rfl
    · rw [gen_tryBody_fail key env topic model _ tr1 hk h1 rfl hm] at h
      rcases h2 : tryBody env topic fallbackModel with ⟨out2, tr2⟩
      cases out2 with
      | ok t =>
        rw [gen_tryBody_ok key env topic fallbackModel t tr2 hk h2] at h
        obtain ⟨rfl, -⟩ : t = s ∧ tr1 ++ tr2 = tr := by simpa using h
        exact Or.inl (tryBody_ok_length env topic fallbackModel _ tr2 h2)
      | httpErr s2 =>
        rw [gen_fb_fail key env topic _ tr2 hk h2 rfl] at h
        obtain ⟨rfl, -⟩ : fillerText topic = s ∧ tr1 ++ tr2 = tr := by simpa using h
        exact Or.inr rfl
      | exn m2 =>
        rw [gen_fb_fail key env topic _ tr2 hk h2 rfl] at h
        obtain ⟨rfl, -⟩ : fillerText topic = s ∧ tr1 ++ tr2 = tr := by simpa using h
        exact Or.inr rfl
  | exn m =>
    by_cases hm : model = fallbackModel
    · subst hm
      rw [gen_fb_fail key env topic _ tr1 hk h1 rfl] at h
      obtain ⟨rfl, -⟩ : fillerText topic = s ∧ tr1 = tr := by simpa using h
      exact Or.inr rfl
    · rw [gen_tryBody_fail key env topic model _ tr1 hk h1 rfl hm] at h
      rcases h2 : tryBody env topic fallbackModel with ⟨out2, tr2⟩
      cases out2 with
      | ok t =>
        rw [gen_tryBody_ok key env topic fallbackModel t tr2 hk h2] at h
        obtain ⟨rfl, -⟩ : t = s ∧ tr1 ++ tr2 = tr := by simpa using h
        exact Or.inl (tryBody_ok_length env topic fallbackModel _ tr2 h2)
      | httpErr s2 =>
        rw [gen_fb_fail key env topic _ tr2 hk h2 rfl] at h
        obtain ⟨rfl, -⟩ : fillerText topic = s ∧ tr1 ++ tr2 = tr := by simpa using h
        exact Or.inr rfl
      | exn m2 =>
        rw [gen_fb_fail key env topic _ tr2 hk h2 rfl] at h
        obtain ⟨rfl, -⟩ : fillerText topic = s ∧ tr1 ++ tr2 = tr := by simpa using h
        exact Or.inr rfl

theorem gen_fb_trace (key : Option String) (env : HFEnv) (topic : String)
    (hk : keyTruthy key = true) :
    (generate_content_with_huggingface key env topic fallbackModel).2 =
      (tryBody env topic fallbackModel).2 := by
  rcases h2 : tryBody env topic fallbackModel with ⟨out2, tr2⟩
  cases out2 with
  | ok t => rw [gen_tryBody_ok key env topic fallbackModel t tr2 hk h2]
  | httpErr s => rw [gen_fb_fail key env topic _ tr2 hk h2 rfl]
  | exn m => rw [gen_fb_fail key env topic _ tr2 hk h2 rfl]

theorem decodePost_toJ (p : Post) : decodePost (Post.toJ p) = some p := rfl

theorem decodePosts_encodePosts (posts : List Post) :
    decodePosts (encodePosts posts) = some posts := by
  induction posts with
  | nil => rfl
  | cons p rest ih =>
    simp only [decodePosts, encodePosts, List.map_cons, List.mapM_cons] at ih ⊢
    rw [decodePost_toJ]
    rcases hrest : (rest.map Post.toJ).mapM decodePost with - | l
    · rw [hrest] at ih; simp at ih
    · rw [hrest] at ih
      simp at ih
      simp [hrest, ih]

theorem findById_notFound (posts : List JValue) (pid : String)
    (h : ∀ p ∈ posts, ∃ s, jIndex p "id" = some (.str s) ∧ s ≠ pid) :
    findById posts pid = .notFound := by
  induction posts with
  | nil => rfl
  | cons p rest ih =>
    obtain ⟨s, hs, hne⟩ := h p (List.mem_cons_self p rest)
    have hpe : pyEqStr (.str s) pid = false := by simp [pyEqStr, hne]
    rw [findById, hs]
    simp only [hpe, Bool.false_eq_true, if_false]
    exact ih (fun q hq => h q (List.mem_cons_of_mem p hq))

theorem tryBody_short_ok (env : HFEnv) (topic model raw raw2 : String) (s1 s2 : Nat)
    (h1 : env ⟨model, initialPrompt topic⟩ = .resp s1 (some raw))
    (hrs1 : raiseForStatus s1 = false)
    (hw : (pyWords (pyStrip raw)).length < 300)
    (h2 : env ⟨model, followUpPrompt topic⟩ = .resp s2 (some raw2))
    (hrs2 : raiseForStatus s2 = false) :
    tryBody env topic model =
      (.ok (pyTake (pyStrip raw ++ " " ++ pyStrip raw2) 3000),
       [⟨model, initialPrompt topic⟩, ⟨model, followUpPrompt topic⟩]) := by
  simp [tryBody, h1, hrs1, hw, h2, hrs2]

theorem tryBody_long_ok (env : HFEnv) (topic model raw : String) (s1 : Nat)
    (h1 : env ⟨model, initialPrompt topic⟩ = .resp s1 (some raw))
    (hrs1 : raiseForStatus s1 = false)
    (hw : ¬ (pyWords (pyStrip raw)).length < 300) :
    tryBody env topic model = (.ok (pyTake (pyStrip raw) 3000), [⟨model, initialPrompt topic⟩]) := by
  simp [tryBody, h1, hrs1, hw]

theorem tryBody_short_trace (env : HFEnv) (topic model raw : String) (s1 : Nat)
    (h1 : env ⟨model, initialPrompt topic⟩ = .resp s1 (some raw))
    (hrs1 : raiseForStatus s1 = false)
    (hw : (pyWords (pyStrip raw)).length < 300) :
    (tryBody env topic model).2 =
      [⟨model, initialPrompt topic⟩, ⟨model, followUpPrompt topic⟩] := by
  simp only [tryBody, h1, hrs1, Bool.false_eq_true, if_false, if_pos hw]
  rcases env ⟨model, followUpPrompt topic⟩ with ⟨s2, ext2⟩ | m
  · by_cases hr2 : raiseForStatus s2 = true
    · simp [hr2]
    · rcases ext2 with - | r2 <;> simp [hr2]
  · rfl

/-- C1 (amended): for every topic, if the attempt against the primary model
raises (a 4xx/5xx response caught as requests HTTPError, a transport error, or
an undecodable response body) then generate_content_with_huggingface performs
exactly one retry of the same logic against the fallback model t5-small: its
result is the fallback-attempt result, the request trace is the primary
attempt trace followed by the fallback attempt trace, and every retry request
targets t5-small.  If the fallback attempt also raises, the call returns the
static hardcoded placeholder paragraph, which contains the topic.  (The
original claim classified every non-2xx response as a failure; the
counterexample shows a 3xx response is not retried, because raise_for_status
only raises for status codes in [400, 600).) -/
theorem C1_fallback_retry_amended (key : Option String) (env : HFEnv) (topic : String)
    (out1 : TryOut) (tr1 : List HFReq) (hk : keyTruthy key = true)
    (h1 : tryBody env topic primaryModel = (out1, tr1)) (hf1 : out1.failed = true) :
    (generate_content_with_huggingface key env topic primaryModel =
       ((generate_content_with_huggingface key env topic fallbackModel).1,
        tr1 ++ (generate_content_with_huggingface key env topic fallbackModel).2)
     ∧ ∀ r ∈ (generate_content_with_huggingface key env topic fallbackModel).2,
         r.model = fallbackModel)
    ∧ (∀ out2 tr2, tryBody env topic fallbackModel = (out2, tr2) → out2.failed = true →
        generate_content_with_huggingface key env topic primaryModel =
          (.ok (fillerText topic), tr1 ++ tr2)
        ∧ ∃ pre post, (fillerText topic).data = pre ++ topic.data ++ post) := by
  have hmain := gen_tryBody_fail key env topic primaryModel out1 tr1 hk h1 hf1 (by decide)
  refine ⟨⟨hmain, ?_⟩, ?_⟩
  · intro r hr
    rw [gen_fb_trace key env topic hk] at hr
    exact tryBody_trace_model env topic fallbackModel r hr
  · intro out2 tr2 h2 hf2
    refine ⟨?_, ?_⟩
    · rw [hmain, gen_fb_fail key env topic out2 tr2 hk h2 hf2]
    · refine ⟨("Exploring ").data,
        (" today! Recent advancements are driving significant progress in this field. ").data ++
        ("Innovations are enabling new applications, from streamlining processes to enhancing scalability. ").data ++
        ("For example, recent developments have led to a 20% improvement in processing efficiency in related systems. ").data ++
        ("This trend is poised to influence industries by improving operational workflows and fostering sustainable growth.").data, ?_⟩
      simp only [fillerText, String.data_append, List.append_assoc]

/-- C1 witness: with the service unreachable for both models, the call returns
the placeholder and the trace shows one primary request then one fallback
request. -/
theorem C1_witness :
    generate_content_with_huggingface (some "hf_key") allFailEnv "AI Developments" primaryModel =
      (.ok (fillerText "AI Developments"),
       [⟨primaryModel, initialPrompt "AI Developments"⟩,
        ⟨fallbackModel, initialPrompt "AI Developments"⟩]) := by
  have h := C1_fallback_retry_amended (some "hf_key") allFailEnv "AI Developments"
    (.exn "connection refused") [⟨primaryModel, initialPrompt "AI Developments"⟩] rfl rfl rfl
  exact (h.2 (.exn "connection refused")
    [⟨fallbackModel, initialPrompt "AI Developments"⟩] rfl rfl).1

set_option maxRecDepth 100000 in
/-- C1 counterexample to the original claim: the primary-model call receives
an HTTP 303 response, which is not 2xx, with a decodable body; the claim calls
this a failure and requires a retry against t5-small, but the code performs no
retry at all: raise_for_status does not raise below 400, so the 303 body text
is returned and no request ever targets the fallback model. -/
theorem C1_counterexample :
    ¬(200 ≤ 303 ∧ 303 < 300)
    ∧ c1Env ⟨primaryModel, initialPrompt "AI Developments"⟩ = HFResp.resp 303 (some "ok")
    ∧ generate_content_with_huggingface (some "hf_key") c1Env "AI Developments" primaryModel =
        (.ok "ok more",
         [⟨primaryModel, initialPrompt "AI Developments"⟩,
          ⟨primaryModel, followUpPrompt "AI Developments"⟩])
    ∧ ∀ r ∈ (generate_content_with_huggingface (some "hf_key") c1Env "AI Developments" primaryModel).2,
        r.model ≠ fallbackModel := by
  have htb : tryBody c1Env "AI Developments" primaryModel =
      (.ok "ok more",
       [⟨primaryModel, initialPrompt "AI Developments"⟩,
        ⟨primaryModel, followUpPrompt "AI Developments"⟩]) := by decide
  have hgen := gen_tryBody_ok (some "hf_key") c1Env "AI Developments" primaryModel "ok more" _ rfl htb
  refine ⟨by decide, rfl, hgen, ?_⟩
  rw [hgen]
  decide

/-- C2 (amended): whenever the service credential is present and the topic has
at most 2596 characters (every topic in the configured topic list is far
shorter), the string generate_content_with_huggingface returns has length at
most 3000, under every behavior of the external service.  (The original claim
held for every topic; the counterexample shows that on total service failure
the placeholder paragraph embeds the topic verbatim, and its length is the
topic length plus 404, which exceeds 3000 for topics longer than 2596
characters.) -/
theorem C2_length_bound_amended (key : Option String) (env : HFEnv) (topic s : String)
    (tr : List HFReq) (hk : keyTruthy key = true) (htopic : topic.length ≤ 2596)
    (h : generate_content_with_huggingface key env topic primaryModel = (.ok s, tr)) :
    s.length ≤ 3000 := by
  rcases gen_ok_length key env topic primaryModel s tr hk h with hle | rfl
  · exact hle
  · rw [fillerText_length]
    omega

/-- C2 witness: with the service unreachable, the returned placeholder for the
configured topic AI Developments is within the 3000-character bound. -/
theorem C2_witness :
    (fillerText "AI Developments").length ≤ 3000 := by
  have h1 : tryBody allFailEnv "AI Developments" primaryModel =
      (.exn "connection refused", [⟨primaryModel, initialPrompt "AI Developments"⟩]) := rfl
  have h2 : tryBody allFailEnv "AI Developments" fallbackModel =
      (.exn "connection refused", [⟨fallbackModel, initialPrompt "AI Developments"⟩]) := rfl
  have hgen : generate_content_with_huggingface (some "hf_key") allFailEnv "AI Developments" primaryModel =
      (.ok (fillerText "AI Developments"),
       [⟨primaryModel, initialPrompt "AI Developments"⟩,
        ⟨fallbackModel, initialPrompt "AI Developments"⟩]) := by
    rw [gen_tryBody_fail (some "hf_key") allFailEnv "AI Developments" primaryModel _ _ rfl h1 rfl (by decide),
        gen_fb_fail (some "hf_key") allFailEnv "AI Developments" _ _ rfl h2 rfl]
    rfl
  exact C2_length_bound_amended (some "hf_key") allFailEnv "AI Developments" _ _ rfl (by decide) hgen

/-- C2 counterexample to the original claim: for a topic of 2600 characters,
if every service call fails, the returned placeholder string has length 3004,
exceeding the 3000-character bound the claim asserts for every topic. -/
theorem C2_counterexample :
    ∃ s tr, generate_content_with_huggingface (some "hf_key") allFailEnv c2Topic primaryModel =
        (.ok s, tr) ∧ 3000 < s.length := by
  have h1 : tryBody allFailEnv c2Topic primaryModel =
      (.exn "connection refused", [⟨primaryModel, initialPrompt c2Topic⟩]) := rfl
  have h2 : tryBody allFailEnv c2Topic fallbackModel =
      (.exn "connection refused", [⟨fallbackModel, initialPrompt c2Topic⟩]) := rfl
  refine ⟨fillerText c2Topic,
    [⟨primaryModel, initialPrompt c2Topic⟩, ⟨fallbackModel, initialPrompt c2Topic⟩], ?_, ?_⟩
  · rw [gen_tryBody_fail (some "hf_key") allFailEnv c2Topic primaryModel _ _ rfl h1 rfl (by decide),
        gen_fb_fail (some "hf_key") allFailEnv c2Topic _ _ rfl h2 rfl]
    rfl
  · rw [fillerText_length]
    have hlen : c2Topic.length = 2600 := by
      show (List.replicate 2600 'a').length = 2600
      exact List.length_replicate 2600 'a'
    omega

/-- C3: if the generation service answers the initial request with a 2xx
response whose stripped text has fewer than 300 words, the call issues exactly
one continuation request, carrying the follow-up prompt, and, when that
continuation succeeds, returns the first text and the continuation text joined
by a single space and truncated to 3000 characters; if the word count is 300
or more, no continuation request is issued and the first text alone is
truncated and returned. -/
theorem C3_continuation (key : Option String) (env : HFEnv) (topic raw : String) (s1 : Nat)
    (hk : keyTruthy key = true)
    (h1 : env ⟨primaryModel, initialPrompt topic⟩ = .resp s1 (some raw))
    (hs1 : 200 ≤ s1) (hs2 : s1 < 300) :
    if (pyWords (pyStrip raw)).length < 300 then
      (tryBody env topic primaryModel).2 =
        [⟨primaryModel, initialPrompt topic⟩, ⟨primaryModel, followUpPrompt topic⟩]
      ∧ ∀ s2 raw2, env ⟨primaryModel, followUpPrompt topic⟩ = .resp s2 (some raw2) →
          200 ≤ s2 → s2 < 300 →
          generate_content_with_huggingface key env topic primaryModel =
            (.ok (pyTake (pyStrip raw ++ " " ++ pyStrip raw2) 3000),
             [⟨primaryModel, initialPrompt topic⟩, ⟨primaryModel, followUpPrompt topic⟩])
    else
      generate_content_with_huggingface key env topic primaryModel =
        (.ok (pyTake (pyStrip raw) 3000), [⟨primaryModel, initialPrompt topic⟩]) := by
  have hrs1 : raiseForStatus s1 = false := by
    simp only [raiseForStatus, decide_eq_false_iff_not, not_and, not_lt]
    omega
  by_cases hw : (pyWords (pyStrip raw)).length < 300
  · rw [if_pos hw]
    refine ⟨tryBody_short_trace env topic primaryModel raw s1 h1 hrs1 hw, ?_⟩
    intro s2 raw2 h2 hs3 hs4
    have hrs2 : raiseForStatus s2 = false := by
      simp only [raiseForStatus, decide_eq_false_iff_not, not_and, not_lt]
      omega
    exact gen_tryBody_ok key env topic primaryModel _ _ hk
      (tryBody_short_ok env topic primaryModel raw raw2 s1 s2 h1 hrs1 hw h2 hrs2)
  · rw [if_neg hw]
    exact gen_tryBody_ok key env topic primaryModel _ _ hk
      (tryBody_long_ok env topic primaryModel raw s1 h1 hrs1 hw)

set_option maxRecDepth 100000 in
/-- C3 witness: a 200 response with the one-word text alpha triggers exactly
one continuation request; the continuation answers beta and the result is the
two texts joined by one space. -/
theorem C3_witness :
    generate_content_with_huggingface (some "hf_key") c3Env "AI Developments" primaryModel =
      (.ok "alpha beta",
       [⟨primaryModel, initialPrompt "AI Developments"⟩,
        ⟨primaryModel, followUpPrompt "AI Developments"⟩]) := by
  have h := C3_continuation (some "hf_key") c3Env "AI Developments" "alpha" 200 rfl rfl
    (by decide) (by decide)
  rw [if_pos (by decide : (pyWords (pyStrip "alpha")).length < 300)] at h
  have h2 := h.2 200 "beta" rfl (by decide) (by decide)
  rw [h2]
  rfl

/-- C4: generate_content_with_huggingface raises to its caller exactly when
the generation-service credential is absent (os.getenv returned None, or the
equally falsy empty string): it then raises a 500 server error having issued
no service request.  With a credential present it returns a string under every
behavior of the external service and never raises. -/
theorem C4_key_required (key : Option String) (env : HFEnv) (topic : String) :
    (keyTruthy key = false →
      generate_content_with_huggingface key env topic primaryModel =
        (.error ⟨500, "HUGGINGFACE_API_KEY is not configured."⟩, []))
    ∧ (keyTruthy key = true →
      ∃ s tr, generate_content_with_huggingface key env topic primaryModel = (.ok s, tr)) :=
  ⟨fun hk => gen_key_falsy key env topic primaryModel hk,
   fun hk => gen_truthy_ok key env topic hk⟩

/-- C4 witness: with no credential the call errors with status 500 and issues
no request; with a credential and an unreachable service it still returns a
string. -/
theorem C4_witness :
    generate_content_with_huggingface none allFailEnv "AI Developments" primaryModel =
      (.error ⟨500, "HUGGINGFACE_API_KEY is not configured."⟩, [])
    ∧ ∃ s tr, generate_content_with_huggingface (some "hf_key") allFailEnv "AI Developments" primaryModel =
        (.ok s, tr) :=
  ⟨(C4_key_required none allFailEnv "AI Developments").1 rfl,
   (C4_key_required (some "hf_key") allFailEnv "AI Developments").2 rfl⟩

/-- C5 (amended): for every prior file-system state, day and post batch, if
the write succeeds (save returns the file path rather than the None failure
indicator), then loading on the same day with no intervening write returns
exactly the JSON encoding of the saved posts, and decoding it recovers the
batch.  (The original claim had no proviso on the write; the counterexample
shows that when the write raises, save returns None, the file is unchanged and
the load does not return the saved posts.) -/
theorem C5_roundtrip_amended (fs : FS) (day : String) (posts : List Post) :
    (save_posts_for_review fs day posts true).1 = some (queueFile day)
    ∧ load_pending_posts (save_posts_for_review fs day posts true).2 day = encodePosts posts
    ∧ decodePosts (load_pending_posts (save_posts_for_review fs day posts true).2 day) =
        some posts := by
  have hload : load_pending_posts (save_posts_for_review fs day posts true).2 day =
      encodePosts posts := by
    simp [save_posts_for_review, load_pending_posts, readQueue]
  exact ⟨rfl, hload, by rw [hload, decodePosts_encodePosts]⟩

/-- C5 counterexample to the original claim: with an empty file system and a
failing write, save returns the None failure indicator, and the subsequent
same-day load yields the empty list rather than the one saved post. -/
theorem C5_counterexample :
    (save_posts_for_review (fun _ => none) "20251012" [samplePost] false).1 = none
    ∧ decodePosts (load_pending_posts
        (save_posts_for_review (fun _ => none) "20251012" [samplePost] false).2 "20251012") =
        some []
    ∧ some ([] : List Post) ≠ some [samplePost] :=
  ⟨rfl, rfl, by decide⟩

/-- C6: load_pending_posts is total and returns the empty list whenever the
queue file for the day is absent or cannot be read or parsed; the exception
from the read is caught inside the function, so nothing propagates to the
caller. -/
theorem C6_load_never_raises (fs : FS) (day : String)
    (h : fs (queueFile day) = none ∨ fs (queueFile day) = some .unreadable) :
    load_pending_posts fs day = .arr [] := by
  rcases h with h | h <;> simp [load_pending_posts, readQueue, h]

/-- C6 witness: loading from an empty file system yields the empty list. -/
theorem C6_witness : load_pending_posts (fun _ => none) "20251012" = .arr [] :=
  C6_load_never_raises (fun _ => none) "20251012" (Or.inl rfl)

/-- C7: for every request to the upload-post endpoint whose post_id differs
from the id of every post in the current day queue, the endpoint returns the
404 Post ID not found error, performs no publish call, and leaves the stored
queue unchanged. -/
theorem C7_unknown_id_404 (fs : FS) (day : String) (li : PublishCall → LIOutcome)
    (post_id access_token author_urn : String) (posts : List JValue)
    (hload : load_pending_posts fs day = .arr posts)
    (hids : ∀ p ∈ posts, ∃ s, jIndex p "id" = some (.str s) ∧ s ≠ post_id) :
    upload_post fs day li post_id access_token author_urn =
      (.httpError ⟨404, "Post ID not found"⟩, [], fs) := by
  unfold upload_post
  rw [hload]
  simp only [findById_notFound posts post_id hids]

/-- C7 witness: a one-post queue and a lookup with an unknown id yield the 404
outcome, an empty publish trace and an unchanged file system. -/
theorem C7_witness :
    upload_post fs7 "20251012" li201 "no-such-id" "tok" "urn" =
      (.httpError ⟨404, "Post ID not found"⟩, [], fs7) := by
  refine C7_unknown_id_404 fs7 "20251012" li201 "no-such-id" "tok" "urn"
    [Post.toJ samplePost] rfl ?_
  intro p hp
  simp only [List.mem_singleton] at hp
  subst hp
  exact ⟨"07c3d4f1", rfl, by decide⟩

/-- C8 (amended): post_to_linkedin issues exactly one publish call (no retry);
on a 2xx platform response it returns a success result whose post_id is the
x-restli-id header value; on a 4xx or 5xx response it raises an HTTPException
carrying the upstream status code and body text verbatim; on a transport error
it raises a 500 with the underlying message.  (The original claim said every
non-2xx response raises; the counterexample shows a 3xx response does not
raise, because raise_for_status only raises for status codes in [400, 600).) -/
theorem C8_publish_amended (li : PublishCall → LIOutcome)
    (post_text access_token author_urn : String) :
    ((post_to_linkedin li post_text access_token author_urn).2 =
       [⟨post_text, access_token, author_urn⟩])
    ∧ (∀ s body rid, li ⟨post_text, access_token, author_urn⟩ = .resp s body rid →
        400 ≤ s → s < 600 →
        (post_to_linkedin li post_text access_token author_urn).1 =
          .error ⟨s, "LinkedIn API error: " ++ body⟩)
    ∧ (∀ s body rid, li ⟨post_text, access_token, author_urn⟩ = .resp s body rid →
        200 ≤ s → s < 300 →
        (post_to_linkedin li post_text access_token author_urn).1 =
          .ok ⟨"success", rid.getD "Unknown", "Post uploaded to LinkedIn"⟩)
    ∧ (∀ m, li ⟨post_text, access_token, author_urn⟩ = .netError m →
        (post_to_linkedin li post_text access_token author_urn).1 =
          .error ⟨500, "Failed to post to LinkedIn: " ++ m⟩) := by
  refine ⟨?_, ?_, ?_, ?_⟩
  · rcases h : li ⟨post_text, access_token, author_urn⟩ with ⟨s, body, rid⟩ | m
    · simp only [post_to_linkedin, h]
      split <;> rfl
    · simp only [post_to_linkedin, h]
  · intro s body rid h h4 h6
    have hrs : raiseForStatus s = true := by
      simp only [raiseForStatus, decide_eq_true_eq]
      omega
    simp [post_to_linkedin, h, hrs]
  · intro s body rid h h2 h3
    have hrs : raiseForStatus s = false := by
      simp only [raiseForStatus, decide_eq_false_iff_not, not_and, not_lt]
      omega
    simp [post_to_linkedin, h, hrs]
  · intro m h
    simp [post_to_linkedin, h]

/-- C8 witness: a 201 response with an x-restli-id header yields the success
result carrying that identifier, and exactly one publish call was made. -/
theorem C8_witness :
    (post_to_linkedin li201 "text" "tok" "urn").1 =
      .ok ⟨"success", "urn:li:share:42", "Post uploaded to LinkedIn"⟩
    ∧ (post_to_linkedin li201 "text" "tok" "urn").2 = [⟨"text", "tok", "urn"⟩] := by
  have h := C8_publish_amended li201 "text" "tok" "urn"
  exact ⟨h.2.2.1 201 "" (some "urn:li:share:42") rfl (by decide) (by decide), h.1⟩

/-- C8 counterexample to the original claim: a 303 platform response is not
2xx, yet post_to_linkedin raises nothing and returns the success result with
the header identifier, because raise_for_status does not raise below 400. -/
theorem C8_counterexample :
    ¬(200 ≤ 303 ∧ 303 < 300)
    ∧ li303 ⟨"text", "tok", "urn"⟩ = .resp 303 "See Other" (some "urn:li:share:42")
    ∧ (post_to_linkedin li303 "text" "tok" "urn").1 =
        .ok ⟨"success", "urn:li:share:42", "Post uploaded to LinkedIn"⟩ :=
  ⟨by decide, rfl, rfl⟩

theorem take_replicate_append (n : Nat) (a : Char) (l2 : List Char) :
    (List.replicate n a ++ l2).take n = List.replicate n a := by
  induction n with
  | zero => rfl
  | succ m ih => simp [List.replicate_succ, ih]

theorem dropWhile_replicate_char (p : Char → Bool) (a : Char) (hp : p a = false) (n : Nat) :
    List.dropWhile p (List.replicate n a) = List.replicate n a := by
  cases n with
  | zero => rfl
  | succ m => simp [List.replicate_succ, List.dropWhile_cons, hp]

theorem splitOnP_replicate (p : Char → Bool) (a : Char) (hp : p a = false) (n : Nat) :
    List.splitOnP p (List.replicate n a) = [List.replicate n a] :=
  List.splitOnP_eq_single _ _ (fun x hx => by
    rw [List.eq_of_mem_replicate hx, hp]; exact Bool.false_ne_true)

theorem pyStrip_bigA : pyStrip bigA = bigA := by
  have hw : Char.isWhitespace 'a' = false := by decide
  show String.mk ((((List.replicate 3000 'a').dropWhile Char.isWhitespace).reverse.dropWhile
    Char.isWhitespace)).reverse = bigA
  rw [dropWhile_replicate_char _ _ hw, List.reverse_replicate,
      dropWhile_replicate_char _ _ hw, List.reverse_replicate]
  rfl

theorem pyWords_bigA : pyWords bigA = [List.replicate 3000 'a'] := by
  have hw : Char.isWhitespace 'a' = false := by decide
  have hne : List.replicate 3000 'a' ≠ [] := by
    apply List.ne_nil_of_length_pos
    rw [List.length_replicate]
    omega
  show ((List.splitOnP Char.isWhitespace (List.replicate 3000 'a')).filter fun w => w ≠ []) =
    [List.replicate 3000 'a']
  rw [splitOnP_replicate _ _ hw, List.filter_cons, if_pos (decide_eq_true hne)]
  rfl

theorem pyTake_bigA : pyTake (pyStrip bigA ++ " " ++ pyStrip "b") 3000 = bigA := by
  rw [pyStrip_bigA, show pyStrip "b" = "b" from rfl]
  show String.mk (((bigA ++ " ") ++ "b").data.take 3000) = bigA
  rw [String.data_append, String.data_append,
      show bigA.data = List.replicate 3000 'a' from rfl, List.append_assoc,
      take_replicate_append]
  rfl

set_option maxRecDepth 100000 in
/-- C9: the code truncates the generated content to 3000 characters to fit
the LinkedIn limit, but create_post then embeds that content into a template
together with the topic, so the composed text field exceeds 3000 characters
whenever the service supplies enough text: here the configured topic AI
Developments, the first configured template and a 3000-character generation
yield a post whose text has 3109 characters, more than the platform limit. -/
theorem C9_text_exceeds_limit :
    ∃ p, create_post (some "hf_key") c9Env "AI Developments"
        (post_templates.getD 0 "") "07c3d4f1" "2025-10-12T09:00:00" = .ok p
      ∧ 3000 < p.text.length
      ∧ "AI Developments" ∈ content_topics
      ∧ post_templates.getD 0 "" ∈ post_templates := by
  have hw300 : (pyWords (pyStrip bigA)).length < 300 := by
    rw [pyStrip_bigA, pyWords_bigA]
    decide
  have htb : tryBody c9Env "AI Developments" primaryModel =
      (.ok (pyTake (pyStrip bigA ++ " " ++ pyStrip "b") 3000),
       [⟨primaryModel, initialPrompt "AI Developments"⟩,
        ⟨primaryModel, followUpPrompt "AI Developments"⟩]) :=
    tryBody_short_ok c9Env "AI Developments" primaryModel bigA "b" 200 200
      rfl rfl hw300 rfl rfl
  have hgen := gen_tryBody_ok (some "hf_key") c9Env "AI Developments" primaryModel _ _ rfl htb
  have hfmt : ∀ c : String, pyFormat (post_templates.getD 0 "") "AI Developments" c =
      String.mk (("Sharing insights on AI Developments: ").data ++ (c.data ++
        (" This advancement is shaping the future of technology. #Tech #Innovation").data)) :=
    fun c => rfl
  refine ⟨{ id := "07c3d4f1",
            text := pyFormat (post_templates.getD 0 "") "AI Developments"
              (pyTake (pyStrip bigA ++ " " ++ pyStrip "b") 3000),
            topic := "AI Developments", created_at := "2025-10-12T09:00:00" },
          ?_, ?_, by decide, by decide⟩
  · simp only [create_post, hgen]
  · show 3000 < (pyFormat (post_templates.getD 0 "") "AI Developments"
      (pyTake (pyStrip bigA ++ " " ++ pyStrip "b") 3000)).length
    rw [pyTake_bigA, hfmt bigA]
    show 3000 < (("Sharing insights on AI Developments: ").data ++ (bigA.data ++
      (" This advancement is shaping the future of technology. #Tech #Innovation").data)).length
    rw [List.length_append, List.length_append,
        show bigA.data = List.replicate 3000 'a' from rfl, List.length_replicate,
        show ("Sharing insights on AI Developments: ").data.length = 37 from rfl,
        show (" This advancement is shaping the future of technology. #Tech #Innovation").data.length = 72 from rfl]
    omega

/-- C10: a successful platform response with no x-restli-id header still
yields a success result, with post_id equal to the literal string Unknown. -/
theorem C10_missing_header_unknown (li : PublishCall → LIOutcome)
    (post_text access_token author_urn body : String) (s : Nat)
    (h : li ⟨post_text, access_token, author_urn⟩ = .resp s body none)
    (h2 : 200 ≤ s) (h3 : s < 300) :
    (post_to_linkedin li post_text access_token author_urn).1 =
      .ok ⟨"success", "Unknown", "Post uploaded to LinkedIn"⟩ := by
  have hrs : raiseForStatus s = false := by
    simp only [raiseForStatus, decide_eq_false_iff_not, not_and, not_lt]
    omega
  simp [post_to_linkedin, h, hrs]

/-- C10 witness: a 200 response with no header yields post_id Unknown. -/
theorem C10_witness :
    (post_to_linkedin li200NoHeader "text" "tok" "urn").1 =
      .ok ⟨"success", "Unknown", "Post uploaded to LinkedIn"⟩ :=
  C10_missing_header_unknown li200NoHeader "text" "tok" "urn" "" 200 rfl
    (by decide) (by decide)
